import Mathlib

/-!
Verification of the transport/addressing layer of the statime PTP stack:
wire-level address constants, the socket factory, the timestamp adapter
and the in-memory network test double.  Definitions are shallow embeddings
of the Rust source in src/statime-linux/src/socket.rs and
src/statime/src/network/test.rs.
-/

namespace Statime

/-! ## Address table (socket.rs lines 17-88) -/

/-- Embedding of std::net::Ipv4Addr: the four octets of the address. -/
structure Ipv4Addr where
  a : Nat
  b : Nat
  c : Nat
  d : Nat
deriving DecidableEq, Repr

/-- Embedding of Ipv4Addr::new. -/
def Ipv4Addr.new (a b c d : Nat) : Ipv4Addr := ⟨a, b, c, d⟩

/-- Embedding of std::net::Ipv6Addr: the eight 16-bit segments. -/
structure Ipv6Addr where
  s0 : Nat
  s1 : Nat
  s2 : Nat
  s3 : Nat
  s4 : Nat
  s5 : Nat
  s6 : Nat
  s7 : Nat
deriving DecidableEq, Repr

/-- Embedding of Ipv6Addr::new. -/
def Ipv6Addr.new (s0 s1 s2 s3 s4 s5 s6 s7 : Nat) : Ipv6Addr :=
  ⟨s0, s1, s2, s3, s4, s5, s6, s7⟩

/-- const IPV6_PRIMARY_MULTICAST (socket.rs line 17). -/
def IPV6_PRIMARY_MULTICAST : Ipv6Addr := Ipv6Addr.new 0xff0e 0 0 0 0 0 0 0x181

/-- const IPV6_PDELAY_MULTICAST (socket.rs line 18). -/
def IPV6_PDELAY_MULTICAST : Ipv6Addr := Ipv6Addr.new 0xff02 0 0 0 0 0 0 0x6b

/-- const IPV4_PRIMARY_MULTICAST (socket.rs line 20). -/
def IPV4_PRIMARY_MULTICAST : Ipv4Addr := Ipv4Addr.new 224 0 1 129

/-- const IPV4_PDELAY_MULTICAST (socket.rs line 21). -/
def IPV4_PDELAY_MULTICAST : Ipv4Addr := Ipv4Addr.new 224 0 0 107

/-- const EVENT_PORT (socket.rs line 23). -/
def EVENT_PORT : Nat := 319

/-- const GENERAL_PORT (socket.rs line 24). -/
def GENERAL_PORT : Nat := 320

/-- const PTP_ETHERTYPE (socket.rs line 26). -/
def PTP_ETHERTYPE : Nat := 0x88f7

/-- Embedding of std::net::SocketAddrV4: an IPv4 address together with a port. -/
structure SocketAddrV4 where
  ip : Ipv4Addr
  port : Nat
deriving DecidableEq, Repr

/-- Embedding of SocketAddrV4::new. -/
def SocketAddrV4.new (ip : Ipv4Addr) (port : Nat) : SocketAddrV4 := ⟨ip, port⟩

/-- Embedding of std::net::SocketAddrV6: address, port, flowinfo and scope id. -/
structure SocketAddrV6 where
  ip : Ipv6Addr
  port : Nat
  flowinfo : Nat
  scope_id : Nat
deriving DecidableEq, Repr

/-- Embedding of SocketAddrV6::new. -/
def SocketAddrV6.new (ip : Ipv6Addr) (port : Nat) (flowinfo : Nat) (scope_id : Nat) :
    SocketAddrV6 :=
  ⟨ip, port, flowinfo, scope_id⟩

/-- Embedding of timestamped_socket MacAddress: the six octets. -/
structure MacAddress where
  octets : List Nat
deriving DecidableEq, Repr

/-- Embedding of MacAddress::new. -/
def MacAddress.new (octets : List Nat) : MacAddress := ⟨octets⟩

/-- Embedding of timestamped_socket EthernetAddress: protocol (ethertype),
destination MAC and the third constructor argument (set to 0 at every call
site in socket.rs). -/
structure EthernetAddress where
  protocol : Nat
  mac : MacAddress
  ifindex : Int
deriving DecidableEq, Repr

/-- Embedding of EthernetAddress::new. -/
def EthernetAddress.new (protocol : Nat) (mac : MacAddress) (ifindex : Int) :
    EthernetAddress :=
  ⟨protocol, mac, ifindex⟩

/-- The four-slot address quadruple of the PtpTargetAddress trait
(socket.rs lines 28-35), for an arbitrary address type. -/
structure PtpTargetAddress (A : Type) where
  PRIMARY_EVENT : A
  PRIMARY_GENERAL : A
  PDELAY_EVENT : A
  PDELAY_GENERAL : A
deriving DecidableEq, Repr

/-- impl PtpTargetAddress for SocketAddrV4 (socket.rs lines 37-44). -/
def socketAddrV4Targets : PtpTargetAddress SocketAddrV4 where
  PRIMARY_EVENT := SocketAddrV4.new IPV4_PRIMARY_MULTICAST EVENT_PORT
  PRIMARY_GENERAL := SocketAddrV4.new IPV4_PRIMARY_MULTICAST GENERAL_PORT
  PDELAY_EVENT := SocketAddrV4.new IPV4_PDELAY_MULTICAST EVENT_PORT
  PDELAY_GENERAL := SocketAddrV4.new IPV4_PDELAY_MULTICAST GENERAL_PORT

/-- impl PtpTargetAddress for SocketAddrV6 (socket.rs lines 46-53). -/
def socketAddrV6Targets : PtpTargetAddress SocketAddrV6 where
  PRIMARY_EVENT := SocketAddrV6.new IPV6_PRIMARY_MULTICAST EVENT_PORT 0 0
  PRIMARY_GENERAL := SocketAddrV6.new IPV6_PRIMARY_MULTICAST GENERAL_PORT 0 0
  PDELAY_EVENT := SocketAddrV6.new IPV6_PDELAY_MULTICAST EVENT_PORT 0 0
  PDELAY_GENERAL := SocketAddrV6.new IPV6_PDELAY_MULTICAST GENERAL_PORT 0 0

/-- impl PtpTargetAddress for Ieee1588EthernetAddresses (socket.rs lines 60-75). -/
def ieee1588EthernetTargets : PtpTargetAddress EthernetAddress :=
  let primaryEvent : EthernetAddress :=
    EthernetAddress.new PTP_ETHERTYPE
      (MacAddress.new [0x01, 0x1b, 0x19, 0x00, 0x00, 0x00]) 0
  let pdelayEvent : EthernetAddress :=
    EthernetAddress.new PTP_ETHERTYPE
      (MacAddress.new [0x01, 0x80, 0xc2, 0x00, 0x00, 0x0e]) 0
  { PRIMARY_EVENT := primaryEvent
    PRIMARY_GENERAL := primaryEvent
    PDELAY_EVENT := pdelayEvent
    PDELAY_GENERAL := pdelayEvent }

/-- impl PtpTargetAddress for GptpEthernetAddresses (socket.rs lines 77-88). -/
def gptpEthernetTargets : PtpTargetAddress EthernetAddress :=
  let primaryEvent : EthernetAddress :=
    EthernetAddress.new PTP_ETHERTYPE
      (MacAddress.new [0x01, 0x80, 0xc2, 0x00, 0x00, 0x0e]) 0
  { PRIMARY_EVENT := primaryEvent
    PRIMARY_GENERAL := primaryEvent
    PDELAY_EVENT := primaryEvent
    PDELAY_GENERAL := primaryEvent }

/-! ## Timestamp adapter (socket.rs lines 154-156) -/

/-- Embedding of timestamped_socket Timestamp.  Modelled from the spec:
the timestamped_socket crate is outside this repository; the spec
describes a device timestamp as a pair (whole seconds, nanosecond
remainder), with seconds a signed 64-bit count and nanos an unsigned
32-bit remainder. -/
structure Timestamp where
  seconds : Int
  nanos : Nat
deriving DecidableEq, Repr

/-- Rust two's complement wrap-around for a signed w-bit integer. -/
def wrapSigned (w : Nat) (x : Int) : Int :=
  (x + 2 ^ (w - 1)) % 2 ^ w - 2 ^ (w - 1)

/-- Rust i128 multiplication: exact product reduced to the i128 range. -/
def i128Mul (a b : Int) : Int := wrapSigned 128 (a * b)

/-- Rust i128 addition: exact sum reduced to the i128 range. -/
def i128Add (a b : Int) : Int := wrapSigned 128 (a + b)

/-- Embedding of statime Time.  Modelled from the spec: the statime time
module is outside this repository; the spec calls the internal time value
a signed, fixed-point nanosecond-resolution quantity on which arithmetic
is exact integer arithmetic. -/
structure Time where
  fixedNanos : Int
deriving DecidableEq, Repr

/-- Embedding of Time::from_fixed_nanos.  Modelled from the spec: it makes
the internal time value holding the given signed nanosecond count. -/
def Time.from_fixed_nanos (x : Int) : Time := ⟨x⟩

/-- fn timestamp_to_time (socket.rs lines 154-156): the seconds are cast
to i128 (lossless from i64), multiplied by 1000000000 and added to the
nanos cast to i128 (lossless from u32), all in i128 arithmetic. -/
def timestamp_to_time (ts : Timestamp) : Time :=
  Time.from_fixed_nanos (i128Add (i128Mul ts.seconds 1000000000) ts.nanos)

/-! ## Socket factory (socket.rs lines 90-152)

The factory calls the timestamped_socket crate, which is outside this
repository.  Its primitives are modelled from the spec as an oracle
deciding which open and join steps succeed; each open primitive yields an
unbound-then-bound socket value recording the bound port or ethertype,
the requested timestamp-capture mode and the multicast groups joined so
far, and each join primitive appends one group or fails. -/

/-- Timestamp-capture mode of the underlying socket (none, software or
hardware). -/
inductive InterfaceTimestampMode where
  | modeNone
  | software
  | hardware
deriving DecidableEq, Repr

/-- Interface names are opaque strings at this layer. -/
def InterfaceName := String

/-- A socket value of the underlying crate, over an address type A:
the interface it is bound on, the bound port (or ethertype for Ethernet
sockets), the timestamp-capture mode it was opened with, and the
multicast groups joined so far, in join order. -/
structure Socket (A : Type) where
  interface : String
  boundPort : Nat
  tsMode : InterfaceTimestampMode
  joined : List A
deriving DecidableEq, Repr

/-- An I/O-class error naming the step that failed: the open/bind step,
or the join of a particular multicast group. -/
inductive IoError (A : Type) where
  | openFailed
  | joinFailed (group : A)
deriving DecidableEq, Repr

/-- Oracle for the underlying transport primitives: whether the open/bind
step succeeds, and which multicast joins succeed. -/
structure IoOracle (A : Type) where
  openOk : Bool
  joinOk : A → Bool

/-- Modelled from the spec: open_interface_udp4 / open_interface_udp6 /
open_interface_ethernet of the timestamped_socket crate bind a fresh
socket on the interface at the given port (or ethertype) with the given
timestamp-capture mode, joining no groups yet, or fail with an I/O
error. -/
def open_interface (o : IoOracle A) (interface : String) (port : Nat)
    (tsMode : InterfaceTimestampMode) : Except (IoError A) (Socket A) :=
  if o.openOk then .ok ⟨interface, port, tsMode, []⟩ else .error .openFailed

/-- Modelled from the spec: Socket::join_multicast of the
timestamped_socket crate joins the given multicast group on the
interface, or fails with an I/O error; on success the socket has the
group added to its kernel-side membership. -/
def join_multicast (o : IoOracle A) (s : Socket A) (group : A) :
    Except (IoError A) (Socket A) :=
  if o.joinOk group then .ok { s with joined := s.joined ++ [group] }
  else .error (.joinFailed group)

/-- The Rust question-mark operator on Result: continue with the value on
Ok, propagate the error otherwise. -/
def tryOp (x : Except ε α) (f : α → Except ε β) : Except ε β :=
  match x with
  | .ok v => f v
  | .error e => .error e

/-- fn open_ipv4_event_socket (socket.rs lines 90-98). -/
def open_ipv4_event_socket (o : IoOracle SocketAddrV4) (interface : String)
    (timestamping : InterfaceTimestampMode) :
    Except (IoError SocketAddrV4) (Socket SocketAddrV4) :=
  tryOp (open_interface o interface EVENT_PORT timestamping) fun socket =>
  tryOp (join_multicast o socket (SocketAddrV4.new IPV4_PRIMARY_MULTICAST 0)) fun socket =>
  tryOp (join_multicast o socket (SocketAddrV4.new IPV4_PDELAY_MULTICAST 0)) fun socket =>
  .ok socket

/-- fn open_ipv4_general_socket (socket.rs lines 100-107): no caller
timestamping argument; the socket is opened with capture mode none. -/
def open_ipv4_general_socket (o : IoOracle SocketAddrV4) (interface : String) :
    Except (IoError SocketAddrV4) (Socket SocketAddrV4) :=
  tryOp (open_interface o interface GENERAL_PORT InterfaceTimestampMode.modeNone) fun socket =>
  tryOp (join_multicast o socket (SocketAddrV4.new IPV4_PRIMARY_MULTICAST 0)) fun socket =>
  tryOp (join_multicast o socket (SocketAddrV4.new IPV4_PDELAY_MULTICAST 0)) fun socket =>
  .ok socket

/-- fn open_ipv6_event_socket (socket.rs lines 109-120). -/
def open_ipv6_event_socket (o : IoOracle SocketAddrV6) (interface : String)
    (timestamping : InterfaceTimestampMode) :
    Except (IoError SocketAddrV6) (Socket SocketAddrV6) :=
  tryOp (open_interface o interface EVENT_PORT timestamping) fun socket =>
  tryOp (join_multicast o socket (SocketAddrV6.new IPV6_PRIMARY_MULTICAST 0 0 0)) fun socket =>
  tryOp (join_multicast o socket (SocketAddrV6.new IPV6_PDELAY_MULTICAST 0 0 0)) fun socket =>
  .ok socket

/-- fn open_ipv6_general_socket (socket.rs lines 122-133): no caller
timestamping argument; the socket is opened with capture mode none. -/
def open_ipv6_general_socket (o : IoOracle SocketAddrV6) (interface : String) :
    Except (IoError SocketAddrV6) (Socket SocketAddrV6) :=
  tryOp (open_interface o interface GENERAL_PORT InterfaceTimestampMode.modeNone) fun socket =>
  tryOp (join_multicast o socket (SocketAddrV6.new IPV6_PRIMARY_MULTICAST 0 0 0)) fun socket =>
  tryOp (join_multicast o socket (SocketAddrV6.new IPV6_PDELAY_MULTICAST 0 0 0)) fun socket =>
  .ok socket

/-- fn open_ethernet_socket (socket.rs lines 135-143). -/
def open_ethernet_socket (o : IoOracle EthernetAddress) (interface : String)
    (timestamping : InterfaceTimestampMode) :
    Except (IoError EthernetAddress) (Socket EthernetAddress) :=
  tryOp (open_interface o interface PTP_ETHERTYPE timestamping) fun socket =>
  tryOp (join_multicast o socket ieee1588EthernetTargets.PRIMARY_EVENT) fun socket =>
  tryOp (join_multicast o socket ieee1588EthernetTargets.PDELAY_EVENT) fun socket =>
  .ok socket

/-- fn open_gptp_socket (socket.rs lines 145-152). -/
def open_gptp_socket (o : IoOracle EthernetAddress) (interface : String)
    (timestamping : InterfaceTimestampMode) :
    Except (IoError EthernetAddress) (Socket EthernetAddress) :=
  tryOp (open_interface o interface PTP_ETHERTYPE timestamping) fun socket =>
  tryOp (join_multicast o socket gptpEthernetTargets.PRIMARY_EVENT) fun socket =>
  .ok socket

/-! ## Network test double (test.rs)

The shared capture log (Rc RefCell TestRuntimeData) is embedded as
explicit state: every operation takes the packet buffer and returns the
updated buffer.  ArrayVec is embedded as a list whose push succeeds only
below the capacity; a push at capacity panics in the arrayvec crate, and
a panic is embedded as the result none, aborting the call with no
resulting state. -/

/-- Push of the arrayvec crate at capacity cap: appends at the end, or
panics (none) when the vector is full. -/
def avPush (cap : Nat) (xs : List α) (x : α) : Option (List α) :=
  if xs.length < cap then some (xs ++ [x]) else none

/-- struct TestNetworkPacket (test.rs lines 10-16): one captured send.
The data field is an ArrayVec of u8 with capacity 255. -/
structure TestNetworkPacket where
  data : List Nat
  interface : String
  time_critical : Bool
  index : Nat
deriving DecidableEq, Repr

/-- struct TestRuntimeData (test.rs lines 18-21): the shared capture log,
an ArrayVec of TestNetworkPacket with capacity 255. -/
structure TestRuntimeData where
  packet_buffer : List TestNetworkPacket
deriving DecidableEq, Repr

/-- struct TestRuntimePort (test.rs lines 28-34), without the shared Rc
handle, which the embedding carries as explicit state instead. -/
structure TestRuntimePort where
  interface : String
  time_critical : Bool
  send_index : Nat
deriving DecidableEq, Repr

/-- enum TestError (test.rs lines 36-37): an empty enum, so this error
kind has no values at all. -/
inductive TestError where
deriving DecidableEq

/-- fn TestRuntime::get_sent (test.rs lines 39-43): pops the
most-recently pushed record off the shared log, or reports it empty. -/
def get_sent (d : TestRuntimeData) : Option TestNetworkPacket × TestRuntimeData :=
  match d.packet_buffer.getLast? with
  | none => (none, d)
  | some p => (some p, ⟨d.packet_buffer.dropLast⟩)

/-- fn NetworkRuntime::open for TestRuntime (test.rs lines 50-61): always
Ok, yielding a port holding the interface, the time-critical flag and a
send counter at 0, sharing the runtime state (which it leaves
untouched). -/
def TestRuntime.open (interface : String) (time_critical : Bool)
    (d : TestRuntimeData) : Except TestError (TestRuntimePort × TestRuntimeData) :=
  .ok (⟨interface, time_critical, 0⟩, d)

/-- fn NetworkRuntime::recv for TestRuntime (test.rs lines 63-65): the
body is the todo macro, an unconditional panic; the embedding returns
none (panic) and never a value or error. -/
def TestRuntime.recv (_d : TestRuntimeData) :
    Option (Except TestError (List Nat) × TestRuntimeData) :=
  none

/-- fn NetworkPort::send for TestRuntimePort (test.rs lines 68-92):
records the current counter, copies the payload byte by byte into a fresh
ArrayVec of capacity 255 (panicking past 255 bytes), increments the
counter, pushes the captured record onto the shared log (panicking when
the log holds 255 records), and returns Some(recorded counter) exactly
when the port is time-critical.  A panic anywhere is the overall result
none. -/
def send (p : TestRuntimePort) (data : List Nat) (d : TestRuntimeData) :
    Option (Option Nat × TestRuntimePort × TestRuntimeData) :=
  let index := p.send_index
  match data.foldlM (avPush 255) [] with
  | none => none
  | some data_array =>
    let p := { p with send_index := p.send_index + 1 }
    match avPush 255 d.packet_buffer
        ⟨data_array, p.interface, p.time_critical, index⟩ with
    | none => none
    | some buffer =>
      some (if p.time_critical then some index else none, p, ⟨buffer⟩)

/-! ## Helper lemmas -/

/-- Folding the arrayvec push over a payload copies it whole when it fits
the remaining capacity and panics otherwise. -/
lemma foldlM_avPush (cap : Nat) (data : List α) : ∀ acc : List α, acc.length ≤ cap →
    data.foldlM (avPush cap) acc =
      if acc.length + data.length ≤ cap then some (acc ++ data) else none := by
  induction data with
  | nil => intro acc h; simp [h]
  | cons x xs ih =>
    intro acc h
    rw [List.foldlM_cons]
    by_cases hlt : acc.length < cap
    · have hpush : avPush cap acc x = some (acc ++ [x]) := by simp [avPush, hlt]
      rw [hpush]
      show xs.foldlM (avPush cap) (acc ++ [x]) = _
      rw [ih (acc ++ [x]) (by simp; omega)]
      simp only [List.length_append, List.length_cons, List.length_nil]
      by_cases hfit : acc.length + (xs.length + 1) ≤ cap
      · rw [if_pos (by omega), if_pos (by omega)]
        simp
      · rw [if_neg (by omega), if_neg (by omega)]
    · have hpush : avPush cap acc x = none := by simp [avPush, hlt]
      rw [hpush]
      have hover : ¬ acc.length + (xs.length + 1) ≤ cap := by omega
      simp only [List.length_cons]
      rw [if_neg hover]
      rfl

/-- A payload of at most 255 bytes is copied whole into the fresh
ArrayVec. -/
lemma foldlM_avPush_copy (data : List Nat) (h : data.length ≤ 255) :
    data.foldlM (avPush 255) [] = some data := by
  rw [foldlM_avPush 255 data [] (by simp)]
  simp [h]

/-- A payload longer than 255 bytes panics while being copied into the
fresh ArrayVec. -/
lemma foldlM_avPush_panic (data : List Nat) (h : 255 < data.length) :
    data.foldlM (avPush 255) [] = none := by
  rw [foldlM_avPush 255 data [] (by simp)]
  simp; omega

/-- A value already within the signed 128-bit range is unchanged by the
i128 wrap-around. -/
lemma wrapSigned128_eq_self {x : Int}
    (h1 : -170141183460469231731687303715884105728 ≤ x)
    (h2 : x < 170141183460469231731687303715884105728) :
    wrapSigned 128 x = x := by
  show (x + 2 ^ 127) % 2 ^ 128 - 2 ^ 127 = x
  have e127 : (2 : Int) ^ 127 = 170141183460469231731687303715884105728 := by norm_num
  have e128 : (2 : Int) ^ 128 = 340282366920938463463374607431768211456 := by norm_num
  rw [e127, e128]
  omega

/-- The all-success oracle for IPv4 primitives. -/
def allOk4 : IoOracle SocketAddrV4 := ⟨true, fun _ => true⟩

/-- The all-success oracle for IPv6 primitives. -/
def allOk6 : IoOracle SocketAddrV6 := ⟨true, fun _ => true⟩

/-- The all-success oracle for Ethernet primitives. -/
def allOkE : IoOracle EthernetAddress := ⟨true, fun _ => true⟩

/-! ## Claims -/

/-- C1: the address table's wire-level constants equal exactly the
standard values: event port 319, general port 320, ethertype 0x88F7,
IPv4 multicast 224.0.1.129 (primary) and 224.0.0.107 (pdelay), IPv6
multicast ff0e::181 (primary) and ff02::6b (pdelay), and the Ethernet
MAC 01:1B:19:00:00:00 for the 1588 primary slots, 01:80:C2:00:00:0E for
the 1588 pdelay slots and for every gPTP slot, each at ethertype
0x88F7. -/
theorem c1_wire_constants :
    EVENT_PORT = 319 ∧ GENERAL_PORT = 320 ∧ PTP_ETHERTYPE = 0x88F7 ∧
    IPV4_PRIMARY_MULTICAST = ⟨224, 0, 1, 129⟩ ∧
    IPV4_PDELAY_MULTICAST = ⟨224, 0, 0, 107⟩ ∧
    IPV6_PRIMARY_MULTICAST = ⟨0xff0e, 0, 0, 0, 0, 0, 0, 0x181⟩ ∧
    IPV6_PDELAY_MULTICAST = ⟨0xff02, 0, 0, 0, 0, 0, 0, 0x6b⟩ ∧
    socketAddrV4Targets = ⟨⟨⟨224, 0, 1, 129⟩, 319⟩, ⟨⟨224, 0, 1, 129⟩, 320⟩,
      ⟨⟨224, 0, 0, 107⟩, 319⟩, ⟨⟨224, 0, 0, 107⟩, 320⟩⟩ ∧
    socketAddrV6Targets =
      ⟨⟨⟨0xff0e, 0, 0, 0, 0, 0, 0, 0x181⟩, 319, 0, 0⟩,
       ⟨⟨0xff0e, 0, 0, 0, 0, 0, 0, 0x181⟩, 320, 0, 0⟩,
       ⟨⟨0xff02, 0, 0, 0, 0, 0, 0, 0x6b⟩, 319, 0, 0⟩,
       ⟨⟨0xff02, 0, 0, 0, 0, 0, 0, 0x6b⟩, 320, 0, 0⟩⟩ ∧
    ieee1588EthernetTargets.PRIMARY_EVENT.mac = ⟨[0x01, 0x1B, 0x19, 0x00, 0x00, 0x00]⟩ ∧
    ieee1588EthernetTargets.PRIMARY_GENERAL.mac = ⟨[0x01, 0x1B, 0x19, 0x00, 0x00, 0x00]⟩ ∧
    ieee1588EthernetTargets.PDELAY_EVENT.mac = ⟨[0x01, 0x80, 0xC2, 0x00, 0x00, 0x0E]⟩ ∧
    ieee1588EthernetTargets.PDELAY_GENERAL.mac = ⟨[0x01, 0x80, 0xC2, 0x00, 0x00, 0x0E]⟩ ∧
    gptpEthernetTargets.PRIMARY_EVENT.mac = ⟨[0x01, 0x80, 0xC2, 0x00, 0x00, 0x0E]⟩ ∧
    gptpEthernetTargets.PRIMARY_GENERAL.mac = ⟨[0x01, 0x80, 0xC2, 0x00, 0x00, 0x0E]⟩ ∧
    gptpEthernetTargets.PDELAY_EVENT.mac = ⟨[0x01, 0x80, 0xC2, 0x00, 0x00, 0x0E]⟩ ∧
    gptpEthernetTargets.PDELAY_GENERAL.mac = ⟨[0x01, 0x80, 0xC2, 0x00, 0x00, 0x0E]⟩ ∧
    ieee1588EthernetTargets.PRIMARY_EVENT.protocol = 0x88F7 ∧
    ieee1588EthernetTargets.PDELAY_EVENT.protocol = 0x88F7 ∧
    gptpEthernetTargets.PRIMARY_EVENT.protocol = 0x88F7 := by
  decide

/-- C7: the Ethernet address quadruples satisfy the profile-divergence
relations: in the gPTP profile all four slots equal the single address
with MAC 01:80:C2:00:00:0E, while in the plain 1588 Ethernet profile
primary-event equals primary-general, pdelay-event equals pdelay-general,
and the primary pair differs from the pdelay pair. -/
theorem c7_ethernet_profile_relations :
    gptpEthernetTargets.PRIMARY_EVENT =
      EthernetAddress.new PTP_ETHERTYPE (MacAddress.new [0x01, 0x80, 0xC2, 0x00, 0x00, 0x0E]) 0 ∧
    gptpEthernetTargets.PRIMARY_GENERAL = gptpEthernetTargets.PRIMARY_EVENT ∧
    gptpEthernetTargets.PDELAY_EVENT = gptpEthernetTargets.PRIMARY_EVENT ∧
    gptpEthernetTargets.PDELAY_GENERAL = gptpEthernetTargets.PRIMARY_EVENT ∧
    ieee1588EthernetTargets.PRIMARY_EVENT = ieee1588EthernetTargets.PRIMARY_GENERAL ∧
    ieee1588EthernetTargets.PDELAY_EVENT = ieee1588EthernetTargets.PDELAY_GENERAL ∧
    ieee1588EthernetTargets.PRIMARY_EVENT ≠ ieee1588EthernetTargets.PDELAY_EVENT := by
  decide

/-- C2: for every device timestamp with i64 seconds and u32 nanos,
timestamp_to_time returns the internal time value equal to
seconds times 1000000000 plus nanos, with the i128 (at least 96-bit,
signed) intermediate arithmetic never wrapping, and the model uses
integer arithmetic only; in particular the (1, 500000000), (0, 0) and
(100, 0) cases give exactly 1500000000, 0 and 100000000000
nanoseconds. -/
theorem c2_timestamp_to_time_exact :
    (∀ ts : Timestamp,
      -9223372036854775808 ≤ ts.seconds →
      ts.seconds ≤ 9223372036854775807 →
      ts.nanos < 4294967296 →
      timestamp_to_time ts =
        Time.from_fixed_nanos (ts.seconds * 1000000000 + ts.nanos)) ∧
    timestamp_to_time ⟨1, 500000000⟩ = Time.from_fixed_nanos 1500000000 ∧
    timestamp_to_time ⟨0, 0⟩ = Time.from_fixed_nanos 0 ∧
    timestamp_to_time ⟨100, 0⟩ = Time.from_fixed_nanos 100000000000 := by
  have gen : ∀ ts : Timestamp,
      -9223372036854775808 ≤ ts.seconds →
      ts.seconds ≤ 9223372036854775807 →
      ts.nanos < 4294967296 →
      timestamp_to_time ts =
        Time.from_fixed_nanos (ts.seconds * 1000000000 + ts.nanos) := by
    intro ts h1 h2 h3
    have hn0 : (0 : Int) ≤ (ts.nanos : Int) := Int.ofNat_nonneg _
    have hn : (ts.nanos : Int) < 4294967296 := by exact_mod_cast h3
    unfold timestamp_to_time i128Mul i128Add
    have e1 : wrapSigned 128 (ts.seconds * 1000000000) = ts.seconds * 1000000000 :=
      wrapSigned128_eq_self (by linarith) (by linarith)
    rw [e1]
    have e2 : wrapSigned 128 (ts.seconds * 1000000000 + ts.nanos) =
        ts.seconds * 1000000000 + ts.nanos :=
      wrapSigned128_eq_self (by linarith) (by linarith)
    rw [e2]
  refine ⟨gen, ?_, ?_, ?_⟩
  · rw [gen ⟨1, 500000000⟩ (by norm_num) (by norm_num) (by norm_num)]
    simp only [Time.from_fixed_nanos, Time.mk.injEq]
    norm_num
  · rw [gen ⟨0, 0⟩ (by norm_num) (by norm_num) (by norm_num)]
    simp only [Time.from_fixed_nanos, Time.mk.injEq]
    norm_num
  · rw [gen ⟨100, 0⟩ (by norm_num) (by norm_num) (by norm_num)]
    simp only [Time.from_fixed_nanos, Time.mk.injEq]
    norm_num

/-- Witness for C2 at the concrete timestamp (7, 123): both hypotheses
hold and the adapter yields the exact nanosecond count. -/
theorem c2_timestamp_to_time_exact_witness :
    timestamp_to_time ⟨7, 123⟩ = Time.from_fixed_nanos (7 * 1000000000 + 123) :=
  c2_timestamp_to_time_exact.1 ⟨7, 123⟩ (by decide) (by decide) (by decide)

/-- Generic open-then-two-joins factory shape: it returns a socket exactly
when the open and both joins succeed, and the returned socket carries both
joined groups. -/
lemma open_join2_ok_iff (o : IoOracle A) (i : String) (port : Nat)
    (m : InterfaceTimestampMode) (g1 g2 : A) (s : Socket A) :
    (tryOp (open_interface o i port m) fun socket =>
     tryOp (join_multicast o socket g1) fun socket =>
     tryOp (join_multicast o socket g2) fun socket =>
     .ok socket) = .ok s ↔
      o.openOk = true ∧ o.joinOk g1 = true ∧ o.joinOk g2 = true ∧
      s = ⟨i, port, m, [g1, g2]⟩ := by
  unfold open_interface join_multicast tryOp
  cases ho : o.openOk <;>
    cases h1 : o.joinOk g1 <;>
      cases h2 : o.joinOk g2 <;>
        simp [eq_comm]

/-- Generic open-then-one-join factory shape: it returns a socket exactly
when the open and the single join succeed, and the returned socket carries
the joined group. -/
lemma open_join1_ok_iff (o : IoOracle A) (i : String) (port : Nat)
    (m : InterfaceTimestampMode) (g1 : A) (s : Socket A) :
    (tryOp (open_interface o i port m) fun socket =>
     tryOp (join_multicast o socket g1) fun socket =>
     .ok socket) = .ok s ↔
      o.openOk = true ∧ o.joinOk g1 = true ∧ s = ⟨i, port, m, [g1]⟩ := by
  unfold open_interface join_multicast tryOp
  cases ho : o.openOk <;>
    cases h1 : o.joinOk g1 <;>
      simp [eq_comm]

/-- C5: for every socket-factory operation, a socket value is returned
exactly when the open/bind step and every multicast join in the
operation's sequence succeeded; in every other outcome the Except result
is an I/O-class error, so no partially-joined socket is ever observable
by the caller. -/
theorem c5_factory_all_or_nothing :
    (∀ (o : IoOracle SocketAddrV4) (i : String) (t : InterfaceTimestampMode)
        (s : Socket SocketAddrV4),
      open_ipv4_event_socket o i t = .ok s ↔
        o.openOk = true ∧
        o.joinOk (SocketAddrV4.new IPV4_PRIMARY_MULTICAST 0) = true ∧
        o.joinOk (SocketAddrV4.new IPV4_PDELAY_MULTICAST 0) = true ∧
        s = ⟨i, EVENT_PORT, t, [SocketAddrV4.new IPV4_PRIMARY_MULTICAST 0,
          SocketAddrV4.new IPV4_PDELAY_MULTICAST 0]⟩) ∧
    (∀ (o : IoOracle SocketAddrV4) (i : String) (s : Socket SocketAddrV4),
      open_ipv4_general_socket o i = .ok s ↔
        o.openOk = true ∧
        o.joinOk (SocketAddrV4.new IPV4_PRIMARY_MULTICAST 0) = true ∧
        o.joinOk (SocketAddrV4.new IPV4_PDELAY_MULTICAST 0) = true ∧
        s = ⟨i, GENERAL_PORT, InterfaceTimestampMode.modeNone,
          [SocketAddrV4.new IPV4_PRIMARY_MULTICAST 0,
           SocketAddrV4.new IPV4_PDELAY_MULTICAST 0]⟩) ∧
    (∀ (o : IoOracle SocketAddrV6) (i : String) (t : InterfaceTimestampMode)
        (s : Socket SocketAddrV6),
      open_ipv6_event_socket o i t = .ok s ↔
        o.openOk = true ∧
        o.joinOk (SocketAddrV6.new IPV6_PRIMARY_MULTICAST 0 0 0) = true ∧
        o.joinOk (SocketAddrV6.new IPV6_PDELAY_MULTICAST 0 0 0) = true ∧
        s = ⟨i, EVENT_PORT, t, [SocketAddrV6.new IPV6_PRIMARY_MULTICAST 0 0 0,
          SocketAddrV6.new IPV6_PDELAY_MULTICAST 0 0 0]⟩) ∧
    (∀ (o : IoOracle SocketAddrV6) (i : String) (s : Socket SocketAddrV6),
      open_ipv6_general_socket o i = .ok s ↔
        o.openOk = true ∧
        o.joinOk (SocketAddrV6.new IPV6_PRIMARY_MULTICAST 0 0 0) = true ∧
        o.joinOk (SocketAddrV6.new IPV6_PDELAY_MULTICAST 0 0 0) = true ∧
        s = ⟨i, GENERAL_PORT, InterfaceTimestampMode.modeNone,
          [SocketAddrV6.new IPV6_PRIMARY_MULTICAST 0 0 0,
           SocketAddrV6.new IPV6_PDELAY_MULTICAST 0 0 0]⟩) ∧
    (∀ (o : IoOracle EthernetAddress) (i : String) (t : InterfaceTimestampMode)
        (s : Socket EthernetAddress),
      open_ethernet_socket o i t = .ok s ↔
        o.openOk = true ∧
        o.joinOk ieee1588EthernetTargets.PRIMARY_EVENT = true ∧
        o.joinOk ieee1588EthernetTargets.PDELAY_EVENT = true ∧
        s = ⟨i, PTP_ETHERTYPE, t, [ieee1588EthernetTargets.PRIMARY_EVENT,
          ieee1588EthernetTargets.PDELAY_EVENT]⟩) ∧
    (∀ (o : IoOracle EthernetAddress) (i : String) (t : InterfaceTimestampMode)
        (s : Socket EthernetAddress),
      open_gptp_socket o i t = .ok s ↔
        o.openOk = true ∧
        o.joinOk gptpEthernetTargets.PRIMARY_EVENT = true ∧
        s = ⟨i, PTP_ETHERTYPE, t, [gptpEthernetTargets.PRIMARY_EVENT]⟩) := by
  refine ⟨?_, ?_, ?_, ?_, ?_, ?_⟩
  · intro o i t s
    unfold open_ipv4_event_socket
    exact open_join2_ok_iff o i EVENT_PORT t _ _ s
  · intro o i s
    unfold open_ipv4_general_socket
    exact open_join2_ok_iff o i GENERAL_PORT InterfaceTimestampMode.modeNone _ _ s
  · intro o i t s
    unfold open_ipv6_event_socket
    exact open_join2_ok_iff o i EVENT_PORT t _ _ s
  · intro o i s
    unfold open_ipv6_general_socket
    exact open_join2_ok_iff o i GENERAL_PORT InterfaceTimestampMode.modeNone _ _ s
  · intro o i t s
    unfold open_ethernet_socket
    exact open_join2_ok_iff o i PTP_ETHERTYPE t _ _ s
  · intro o i t s
    unfold open_gptp_socket
    exact open_join1_ok_iff o i PTP_ETHERTYPE t _ s

/-- C6: under all-success primitives each socket-factory operation joins
exactly the groups the spec assigns: IPv4 event and general sockets both
join the IPv4 primary and pdelay groups, identically except for the
bound port (319 versus 320); IPv6 likewise with the IPv6 groups; the
1588 Ethernet variant joins both the primary and pdelay MAC groups; the
gPTP variant joins only the single gPTP MAC group. -/
theorem c6_joined_groups : ∀ (i : String) (t : InterfaceTimestampMode),
    open_ipv4_event_socket allOk4 i t =
      .ok ⟨i, EVENT_PORT, t, [SocketAddrV4.new IPV4_PRIMARY_MULTICAST 0,
        SocketAddrV4.new IPV4_PDELAY_MULTICAST 0]⟩ ∧
    open_ipv4_general_socket allOk4 i =
      .ok ⟨i, GENERAL_PORT, InterfaceTimestampMode.modeNone,
        [SocketAddrV4.new IPV4_PRIMARY_MULTICAST 0,
         SocketAddrV4.new IPV4_PDELAY_MULTICAST 0]⟩ ∧
    open_ipv6_event_socket allOk6 i t =
      .ok ⟨i, EVENT_PORT, t, [SocketAddrV6.new IPV6_PRIMARY_MULTICAST 0 0 0,
        SocketAddrV6.new IPV6_PDELAY_MULTICAST 0 0 0]⟩ ∧
    open_ipv6_general_socket allOk6 i =
      .ok ⟨i, GENERAL_PORT, InterfaceTimestampMode.modeNone,
        [SocketAddrV6.new IPV6_PRIMARY_MULTICAST 0 0 0,
         SocketAddrV6.new IPV6_PDELAY_MULTICAST 0 0 0]⟩ ∧
    open_ethernet_socket allOkE i t =
      .ok ⟨i, PTP_ETHERTYPE, t, [ieee1588EthernetTargets.PRIMARY_EVENT,
        ieee1588EthernetTargets.PDELAY_EVENT]⟩ ∧
    open_gptp_socket allOkE i t =
      .ok ⟨i, PTP_ETHERTYPE, t, [gptpEthernetTargets.PRIMARY_EVENT]⟩ := by
  intro i t
  exact ⟨rfl, rfl, rfl, rfl, rfl, rfl⟩

/-- C8: every general-socket operation opens the underlying socket with
timestamp-capture mode none for every interface and oracle (and, as the
signatures of open_ipv4_general_socket and open_ipv6_general_socket show,
takes no caller-supplied timestamping argument): any socket they return
carries capture mode none. -/
theorem c8_general_no_timestamping :
    (∀ (o : IoOracle SocketAddrV4) (i : String) (s : Socket SocketAddrV4),
      open_ipv4_general_socket o i = .ok s →
        s.tsMode = InterfaceTimestampMode.modeNone) ∧
    (∀ (o : IoOracle SocketAddrV6) (i : String) (s : Socket SocketAddrV6),
      open_ipv6_general_socket o i = .ok s →
        s.tsMode = InterfaceTimestampMode.modeNone) := by
  constructor
  · intro o i s h
    unfold open_ipv4_general_socket at h
    rw [open_join2_ok_iff] at h
    rw [h.2.2.2]
  · intro o i s h
    unfold open_ipv6_general_socket at h
    rw [open_join2_ok_iff] at h
    rw [h.2.2.2]

/-- Witness for C8: the IPv4 general socket opened on a concrete
interface under all-success primitives has capture mode none. -/
theorem c8_general_no_timestamping_witness :
    (⟨"eth0", GENERAL_PORT, InterfaceTimestampMode.modeNone,
      [SocketAddrV4.new IPV4_PRIMARY_MULTICAST 0,
       SocketAddrV4.new IPV4_PDELAY_MULTICAST 0]⟩ : Socket SocketAddrV4).tsMode =
      InterfaceTimestampMode.modeNone :=
  c8_general_no_timestamping.1 allOk4 "eth0" _ rfl

/-- A capture log holding 255 records, the ArrayVec capacity. -/
def fullLog : TestRuntimeData := ⟨List.replicate 255 ⟨[], "x", false, 0⟩⟩

/-- C3: for every test-double port and every payload within the capture
size (with room left in the shared log, compare C10), send appends
exactly one record carrying a copy of the payload, the port's interface,
its time-critical flag and its pre-call counter value, increments the
counter, and returns Some of the pre-call counter exactly when the port
is time-critical; consequently the two-port scenario sends "A" on
time-critical P1 (returning Some 0) then "B" on non-time-critical P2
(returning None), the first pop yields P2's record, the second P1's, and
the third finds the log empty. -/
theorem c3_send_semantics :
    (∀ (p : TestRuntimePort) (data : List Nat) (d : TestRuntimeData),
      data.length ≤ 255 → d.packet_buffer.length < 255 →
      send p data d = some
        (if p.time_critical then some p.send_index else none,
         ⟨p.interface, p.time_critical, p.send_index + 1⟩,
         ⟨d.packet_buffer ++ [⟨data, p.interface, p.time_critical, p.send_index⟩]⟩)) ∧
    TestRuntime.open "P1if" true ⟨[]⟩ = .ok (⟨"P1if", true, 0⟩, ⟨[]⟩) ∧
    TestRuntime.open "P2if" false ⟨[]⟩ = .ok (⟨"P2if", false, 0⟩, ⟨[]⟩) ∧
    send ⟨"P1if", true, 0⟩ [65] ⟨[]⟩ =
      some (some 0, ⟨"P1if", true, 1⟩, ⟨[⟨[65], "P1if", true, 0⟩]⟩) ∧
    send ⟨"P2if", false, 0⟩ [66] ⟨[⟨[65], "P1if", true, 0⟩]⟩ =
      some (none, ⟨"P2if", false, 1⟩,
        ⟨[⟨[65], "P1if", true, 0⟩, ⟨[66], "P2if", false, 0⟩]⟩) ∧
    get_sent ⟨[⟨[65], "P1if", true, 0⟩, ⟨[66], "P2if", false, 0⟩]⟩ =
      (some ⟨[66], "P2if", false, 0⟩, ⟨[⟨[65], "P1if", true, 0⟩]⟩) ∧
    get_sent ⟨[⟨[65], "P1if", true, 0⟩]⟩ = (some ⟨[65], "P1if", true, 0⟩, ⟨[]⟩) ∧
    get_sent ⟨[]⟩ = (none, ⟨[]⟩) := by
  refine ⟨?_, rfl, rfl, by decide, by decide, by decide, by decide, by decide⟩
  intro p data d h1 h2
  obtain ⟨pi, pc, ps⟩ := p
  obtain ⟨buf⟩ := d
  simp only [send, foldlM_avPush_copy data h1]
  simp_all [avPush]

/-- Witness for C3 at a concrete port, payload and log: both hypotheses
hold and send captures the record, bumps the counter and returns the
pre-call sequence value. -/
theorem c3_send_semantics_witness :
    send ⟨"w", true, 5⟩ [1, 2, 3] ⟨[]⟩ =
      some (some 5, ⟨"w", true, 6⟩, ⟨[⟨[1, 2, 3], "w", true, 5⟩]⟩) :=
  c3_send_semantics.1 ⟨"w", true, 5⟩ [1, 2, 3] ⟨[]⟩ (by decide) (by decide)

/-- C4 counterexample: on the 256-byte payload the test double's send
panics (result none): it neither stores a truncated record nor returns a
normal rejection value, so send does not follow a truncate-or-reject
oversize policy. -/
theorem c4_oversize_counterexample :
    255 < (List.replicate 256 (0 : Nat)).length ∧
    send ⟨"w", true, 0⟩ (List.replicate 256 0) ⟨[]⟩ = none := by
  constructor
  · rw [List.length_replicate]
    omega
  · have hf : (List.replicate 256 (0 : Nat)).foldlM (avPush 255) [] = none :=
      foldlM_avPush_panic _ (by rw [List.length_replicate]; omega)
    unfold send
    rw [hf]

/-- C4 amended: for every payload longer than the 255-byte capture size,
the test double's send fails fatally (panics while copying the payload
into the fixed-capacity ArrayVec), uniformly for all such payloads,
appending no record and returning no normal value. -/
theorem c4_oversize_amended :
    ∀ (p : TestRuntimePort) (data : List Nat) (d : TestRuntimeData),
      255 < data.length → send p data d = none := by
  intro p data d h
  have hf := foldlM_avPush_panic data h
  unfold send
  rw [hf]

/-- Witness for the amended C4 at a concrete oversize payload: the
hypothesis holds and send panics. -/
theorem c4_oversize_amended_witness :
    send ⟨"z", false, 2⟩ (List.replicate 300 7) ⟨[⟨[1], "z", false, 1⟩]⟩ = none :=
  c4_oversize_amended ⟨"z", false, 2⟩ (List.replicate 300 7)
    ⟨[⟨[1], "z", false, 1⟩]⟩ (by rw [List.length_replicate]; omega)

/-- C9: the test double's error kind is uninhabited, open always succeeds
with a port holding the supplied interface and time-critical flag and a
send counter at 0 while leaving the shared log untouched, and invoking
the unimplemented receive path panics (result none) rather than
returning any value or error. -/
theorem c9_test_double_infallible :
    (∀ _e : TestError, False) ∧
    (∀ (i : String) (tc : Bool) (d : TestRuntimeData),
      TestRuntime.open i tc d = .ok (⟨i, tc, 0⟩, d)) ∧
    (∀ d : TestRuntimeData, TestRuntime.recv d = none) := by
  refine ⟨?_, ?_, ?_⟩
  · intro _e
    exact _e.rec
  · intro i tc d
    rfl
  · intro d
    rfl

/-- C10: the shared capture log holds at most 255 records: a send
performed while the log already holds 255 records panics (result none),
appending nothing, for every port and payload. -/
theorem c10_full_log_send_panics :
    ∀ (p : TestRuntimePort) (data : List Nat) (d : TestRuntimeData),
      d.packet_buffer.length = 255 → send p data d = none := by
  intro p data d h
  unfold send
  cases hf : data.foldlM (avPush 255) [] with
  | none => rfl
  | some arr =>
    have hp : ∀ arr2 : List Nat, avPush 255 d.packet_buffer
        ⟨arr2, p.interface, p.time_critical, p.send_index⟩ = none := by
      intro arr2
      unfold avPush
      rw [h, if_neg (by omega)]
    simp only [hp]

/-- Witness for C10: a send against a concrete 255-record log panics. -/
theorem c10_full_log_send_panics_witness :
    send ⟨"w", true, 0⟩ [] fullLog = none :=
  c10_full_log_send_panics ⟨"w", true, 0⟩ [] fullLog
    (by show (List.replicate 255 (⟨[], "x", false, 0⟩ : TestNetworkPacket)).length = 255
        rw [List.length_replicate])

end Statime
